import Mathlib

/-!
Verification of `pkg/object/objectpriority/annotation.go` (sigs.k8s.io/cli-utils).

The module reads and writes the `config.kubernetes.io/priority-level`
annotation on a structured (unstructured) Kubernetes object and keeps a
static priority table keyed by (group, kind).

Shallow embedding:
* a possibly-nil `*unstructured.Unstructured` becomes `Option Unstructured`;
  the object is modelled by the facets the code touches: its group, kind,
  namespace, name, and annotation map (`nil` map = `none`);
* a Go `map[string]string` becomes an association list with first-match
  lookup and replace-or-append update (Go maps have unique keys);
* `strconv.ParseUint(s, 10, 64)` becomes `parseUint64 : String → Option Nat`
  (digits only, no sign, value `< 2 ^ 64`);
* `fmt.Sprintf("%d", p)` becomes `natToDecimal`, a fuel-based decimal printer;
* errors become inductive values: `InvalidAnnotationError` for the read path,
  `WriteError.objectIsNil` for the write path.
-/

/-- The facets of `unstructured.Unstructured` the code uses: group and kind
(via `GroupVersionKind().GroupKind()`), namespace and name (logging only),
and the annotation map (`GetAnnotations` returns `nil` when absent,
modelled by `none`). -/
structure Unstructured where
  group : String
  kind : String
  nsName : String
  name : String
  annotations : Option (List (String × String))
  deriving DecidableEq

/-- The annotation key constant `config.kubernetes.io/priority-level`. -/
def Annotation : String := "config.kubernetes.io/priority-level"

/-- `MaxPriority uint64 = 1000000000`. -/
def MaxPriority : Nat := 1000000000

/-- First-match lookup in an association list: Go `m[k]` with `found`. -/
def lookupList (m : List (String × String)) (k : String) : Option String :=
  match m with
  | [] => none
  | (k', v) :: rest => if k' = k then some v else lookupList rest k

/-- Go map indexing through a possibly-`nil` map: a lookup in a `nil` map
reports not-found. -/
def lookupKey (m : Option (List (String × String))) (k : String) : Option String :=
  match m with
  | none => none
  | some l => lookupList l k

/-- Go map assignment `m[k] = v`: replace the binding of `k`, or append it. -/
def setKey (m : List (String × String)) (k v : String) : List (String × String) :=
  match m with
  | [] => [(k, v)]
  | (k', v') :: rest => if k' = k then (k, v) :: rest else (k', v') :: setKey rest k v

/-- The `staticPriorities` table: `(group, kind) ↦ MaxPriority + 1` for
core-group `Namespace` and `apiextensions.k8s.io` `CustomResourceDefinition`. -/
def staticPriorities : List ((String × String) × Nat) :=
  [(("", "Namespace"), MaxPriority + 1),
   (("apiextensions.k8s.io", "CustomResourceDefinition"), MaxPriority + 1)]

/-- Lookup in the static table; a miss returns Go's zero value `(0, false)`. -/
def lookupStatic (m : List ((String × String) × Nat)) (k : String × String) : Option Nat :=
  match m with
  | [] => none
  | (k', v) :: rest => if k' = k then some v else lookupStatic rest k

/-- `GetStaticPriority`: `(0, false)` on `nil`, otherwise the table entry for
the object's (group, kind) with `found`, or `(0, false)` on a miss. -/
def GetStaticPriority (u : Option Unstructured) : Nat × Bool :=
  match u with
  | none => (0, false)
  | some u =>
    match lookupStatic staticPriorities (u.group, u.kind) with
    | some pri => (pri, true)
    | none => (0, false)

/-- `HasAnnotation`: false on `nil`, otherwise whether the annotation map
contains the key. -/
def HasAnnotation (u : Option Unstructured) : Bool :=
  match u with
  | none => false
  | some u => (lookupKey u.annotations Annotation).isSome

/-- A base-10 ASCII digit, `'0'` through `'9'`. -/
def isDigit (c : Char) : Bool := 48 ≤ c.toNat && c.toNat ≤ 57

/-- The numeric value of a digit character. -/
def digitVal (c : Char) : Nat := c.toNat - 48

/-- Base-10 accumulation over a digit list, as `ParseUint`'s loop computes it. -/
def digitsVal (l : List Char) : Nat := l.foldl (fun acc c => acc * 10 + digitVal c) 0

/-- `strconv.ParseUint(s, 10, 64)`: fails on the empty string, on any
non-digit rune (a sign, `'+'`, whitespace, separators), and on values that
do not fit in 64 bits; otherwise returns the accumulated value. -/
def parseUint64 (s : String) : Option Nat :=
  if s = "" then none
  else if s.toList.all isDigit then
    if digitsVal s.toList < 2 ^ 64 then some (digitsVal s.toList) else none
  else none

/-- The cause inside an `object.InvalidAnnotationError`: the wrapped
`ParseUint` failure, or the "priority higher than the maximum allowed"
message citing the maximum. -/
inductive ErrorCause where
  | parseFailure (input : String)
  | higherThanMax (max : Nat)
  deriving DecidableEq

/-- `object.InvalidAnnotationError{Annotation, Cause}`. -/
structure InvalidAnnotationError where
  annotation : String
  cause : ErrorCause
  deriving DecidableEq

/-- `ReadAnnotation`: `(0, nil)` on a `nil` object or a missing key; an
`InvalidAnnotationError` when `ParseUint` fails or the value exceeds
`MaxPriority`; otherwise the parsed priority. The Go pair
`(uint64, error)` is modelled as `Nat × Option InvalidAnnotationError`. -/
def ReadAnnotation (u : Option Unstructured) : Nat × Option InvalidAnnotationError :=
  match u with
  | none => (0, none)
  | some u =>
    match lookupKey u.annotations Annotation with
    | none => (0, none)
    | some priorityStr =>
      match parseUint64 priorityStr with
      | none => (0, some ⟨ Annotation, ErrorCause.parseFailure priorityStr⟩)
      | some priority =>
        if priority > MaxPriority then
          (0, some ⟨ Annotation, ErrorCause.higherThanMax MaxPriority⟩)
        else
          (priority, none)

/-- The error of `WriteAnnotation` on a `nil` object. -/
inductive WriteError where
  | objectIsNil
  deriving DecidableEq

/-- A decimal digit as a character, for digits `0`–`9`. -/
def digitChar (d : Nat) : Char :=
  match d with
  | 0 => '0' | 1 => '1' | 2 => '2' | 3 => '3' | 4 => '4'
  | 5 => '5' | 6 => '6' | 7 => '7' | 8 => '8' | _ => '9'

/-- Most-significant-first decimal digits of `n`, with enough fuel
(`n` itself suffices since `n / 10` shrinks). -/
def natDigitsAux (fuel : Nat) (n : Nat) : List Char :=
  match fuel with
  | 0 => []
  | fuel + 1 => if n = 0 then [] else natDigitsAux fuel (n / 10) ++ [digitChar (n % 10)]

/-- `fmt.Sprintf("%d", n)`: the decimal representation, `"0"` for zero. -/
def natToDecimal (n : Nat) : String :=
  if n = 0 then "0" else String.mk (natDigitsAux n n)

/-- `WriteAnnotation`: errors on a `nil` object; otherwise takes the
annotation map (an empty one if the object has none), binds the key to the
decimal representation of `priority`, and stores the map back. Go's in-place
mutation is modelled by returning the updated object. -/
def WriteAnnotation (obj : Option Unstructured) (priority : Nat) :
    Except WriteError Unstructured :=
  match obj with
  | none => Except.error WriteError.objectIsNil
  | some obj =>
    let a := match obj.annotations with
      | none => []
      | some m => m
    Except.ok { obj with annotations := some (setKey a Annotation (natToDecimal priority)) }

/-- The ConfigMap of the test file without annotations. -/
def cmNoAnn : Unstructured :=
  { group := "", kind := "ConfigMap", nsName := "unused", name := "unused",
    annotations := none }

/-- A ConfigMap carrying the priority annotation with value `s`. -/
def cmWith (s : String) : Unstructured :=
  { group := "", kind := "ConfigMap", nsName := "unused", name := "unused",
    annotations := some [( Annotation, s)] }

example : parseUint64 "1000000000" = some 1000000000 := by decide
example : parseUint64 "1000000001" = some 1000000001 := by decide
example : parseUint64 "-1" = none := by decide
example : parseUint64 "+1" = none := by decide
example : parseUint64 "" = none := by decide
example : natToDecimal 42 = "42" := by decide
example : natToDecimal 0 = "0" := by decide

/-! ### Helper lemmas -/

theorem lookupList_setKey_self (m : List (String × String)) (k v : String) :
    lookupList (setKey m k v) k = some v := by
  induction m with
  | nil => simp [setKey, lookupList]
  | cons hd tl ih =>
    obtain ⟨k', v'⟩ := hd
    by_cases h : k' = k
    · simp [setKey, h, lookupList]
    · simp [setKey, h, lookupList, ih]

theorem lookupList_setKey_ne (m : List (String × String)) (k v q : String)
    (hq : q ≠ k) : lookupList (setKey m k v) q = lookupList m q := by
  have hkq : ¬k = q := fun h => hq h.symm
  induction m with
  | nil => simp [setKey, lookupList, hkq]
  | cons hd tl ih =>
    obtain ⟨k', v'⟩ := hd
    by_cases h : k' = k
    · subst h
      simp [setKey, lookupList, hkq]
    · simp [setKey, h, lookupList, ih]

theorem setKey_setKey (m : List (String × String)) (k v : String) :
    setKey (setKey m k v) k v = setKey m k v := by
  induction m with
  | nil => simp [setKey]
  | cons hd tl ih =>
    obtain ⟨k', v'⟩ := hd
    by_cases h : k' = k
    · simp [setKey, h]
    · simp [setKey, h, ih]

theorem digitChar_spec : ∀ d, d < 10 → isDigit (digitChar d) = true ∧ digitVal (digitChar d) = d := by
  decide

theorem digitsVal_append (l : List Char) (c : Char) :
    digitsVal (l ++ [c]) = digitsVal l * 10 + digitVal c := by
  simp [digitsVal, List.foldl_append]

theorem natDigitsAux_all_isDigit (fuel : Nat) :
    ∀ n, (natDigitsAux fuel n).all isDigit = true := by
  induction fuel with
  | zero => intro n; simp [natDigitsAux]
  | succ fuel ih =>
    intro n
    by_cases h : n = 0
    · simp [natDigitsAux, h]
    · have hd := (digitChar_spec (n % 10) (Nat.mod_lt n (by norm_num))).1
      simp [natDigitsAux, h, List.all_append, ih, hd]

theorem digitsVal_natDigitsAux (fuel : Nat) :
    ∀ n, n ≤ fuel → digitsVal (natDigitsAux fuel n) = n := by
  induction fuel with
  | zero =>
    intro n hn
    have : n = 0 := Nat.le_zero.mp hn
    simp [this, natDigitsAux, digitsVal]
  | succ fuel ih =>
    intro n hn
    by_cases h : n = 0
    · simp [natDigitsAux, h, digitsVal]
    · have hlt : n / 10 < n := Nat.div_lt_self (Nat.pos_of_ne_zero h) (by norm_num)
      have hdiv : n / 10 ≤ fuel := by omega
      have hmod := (digitChar_spec (n % 10) (Nat.mod_lt n (by norm_num))).2
      rw [natDigitsAux]
      simp only [h, if_false]
      rw [digitsVal_append, ih _ hdiv, hmod]
      omega

theorem natDigitsAux_ne_nil (fuel n : Nat) (hn : n ≠ 0) (hf : fuel ≠ 0) :
    natDigitsAux fuel n ≠ [] := by
  match fuel with
  | 0 => exact absurd rfl hf
  | fuel + 1 => simp [natDigitsAux, hn]

theorem parseUint64_natToDecimal (p : Nat) (hp : p < 2 ^ 64) :
    parseUint64 (natToDecimal p) = some p := by
  by_cases h : p = 0
  · subst h; decide
  · have hne : natDigitsAux p p ≠ [] := natDigitsAux_ne_nil p p h h
    have hstr : natToDecimal p = String.mk (natDigitsAux p p) := by
      simp [natToDecimal, h]
    have hempty : ¬(String.mk (natDigitsAux p p) = "") := by
      intro hcontra
      exact hne (String.ext_iff.mp hcontra)
    have hval : digitsVal (natDigitsAux p p) = p := digitsVal_natDigitsAux p p le_rfl
    rw [hstr, parseUint64]
    simp only [hempty, if_false]
    have hlist : (String.mk (natDigitsAux p p)).toList = natDigitsAux p p := rfl
    have hbound : digitsVal (natDigitsAux p p) < 2 ^ 64 := by rw [hval]; exact hp
    rw [hlist, natDigitsAux_all_isDigit]
    simp only [if_true]
    rw [if_pos hbound, hval]

theorem readAnnotation_eq_of_lookup (u : Unstructured) (s : String)
    (h : lookupKey u.annotations Annotation = some s) :
    ReadAnnotation (some u) =
      match parseUint64 s with
      | none => (0, some ⟨ Annotation, ErrorCause.parseFailure s⟩)
      | some priority =>
        if priority > MaxPriority then
          (0, some ⟨ Annotation, ErrorCause.higherThanMax MaxPriority⟩)
        else (priority, none) := by
  simp only [ ReadAnnotation, h]

/-- The object state `WriteAnnotation` leaves behind on a non-nil object:
the annotation map (empty when absent) with the key bound to the decimal
representation of `p`, stored back on the object. -/
def writtenObj (u : Unstructured) (p : Nat) : Unstructured :=
  { u with annotations := some (setKey (u.annotations.getD []) Annotation (natToDecimal p)) }

theorem readAnnotation_parse_none (u : Unstructured) (s : String)
    (h : lookupKey u.annotations Annotation = some s) (hps : parseUint64 s = none) :
    ReadAnnotation (some u) = (0, some ⟨ Annotation, ErrorCause.parseFailure s⟩) := by
  rw [readAnnotation_eq_of_lookup u s h, hps]

theorem readAnnotation_parse_some (u : Unstructured) (s : String) (p : Nat)
    (h : lookupKey u.annotations Annotation = some s) (hps : parseUint64 s = some p) :
    ReadAnnotation (some u) =
      if MaxPriority < p then
        (0, some ⟨ Annotation, ErrorCause.higherThanMax MaxPriority⟩)
      else (p, none) := by
  rw [readAnnotation_eq_of_lookup u s h, hps]

theorem writeAnnotation_some (u : Unstructured) (p : Nat) :
    WriteAnnotation (some u) p = Except.ok (writtenObj u p) := by
  cases hu : u.annotations with
  | none => simp [ WriteAnnotation, writtenObj, hu]
  | some m => simp [ WriteAnnotation, writtenObj, hu]

theorem read_after_write (u : Unstructured) (p : Nat) (h64 : p < 2 ^ 64) :
    ReadAnnotation (some (writtenObj u p)) =
      if MaxPriority < p then
        (0, some ⟨ Annotation, ErrorCause.higherThanMax MaxPriority⟩)
      else (p, none) := by
  have hkey : lookupKey (writtenObj u p).annotations Annotation = some (natToDecimal p) :=
    lookupList_setKey_self _ _ _
  rw [readAnnotation_eq_of_lookup _ _ hkey, parseUint64_natToDecimal p h64]

theorem write_write_eq (u : Unstructured) (p : Nat) :
    WriteAnnotation (some (writtenObj u p)) p = Except.ok (writtenObj u p) := by
  rw [writeAnnotation_some]
  simp [writtenObj, setKey_setKey]

theorem lookupStatic_staticPriorities (g k : String) :
    lookupStatic staticPriorities (g, k) =
      if (g = "" ∧ k = "Namespace")
          ∨ (g = "apiextensions.k8s.io" ∧ k = "CustomResourceDefinition")
      then some (MaxPriority + 1) else none := by
  by_cases h1 : g = "" ∧ k = "Namespace"
  · obtain ⟨hg, hk⟩ := h1
    subst hg; subst hk
    simp [staticPriorities, lookupStatic]
  · by_cases h2 : g = "apiextensions.k8s.io" ∧ k = "CustomResourceDefinition"
    · obtain ⟨hg, hk⟩ := h2
      subst hg; subst hk
      simp [staticPriorities, lookupStatic]
    · have e1 : ¬(("", "Namespace") = ((g, k) : String × String)) := by
        simp [Prod.ext_iff]; tauto
      have e2 : ¬(("apiextensions.k8s.io", "CustomResourceDefinition") = ((g, k) : String × String)) := by
        simp [Prod.ext_iff]; tauto
      simp [staticPriorities, lookupStatic, e1, e2, h1, h2]

/-! ### Claim theorems -/

/-- C2: `GetStaticPriority` returns `(1000000001, true)` exactly for the
(group, kind) pairs `("", "Namespace")` and
`("apiextensions.k8s.io", "CustomResourceDefinition")`, and `(0, false)`
for every other pair and for a nil object; being a pure function of the
object's group and kind over the fixed table, it mutates nothing. -/
theorem getStaticPriority_spec :
    GetStaticPriority none = (0, false)
    ∧ ∀ u : Unstructured,
        GetStaticPriority (some u) =
          if (u.group = "" ∧ u.kind = "Namespace")
              ∨ (u.group = "apiextensions.k8s.io" ∧ u.kind = "CustomResourceDefinition")
          then (1000000001, true) else (0, false) := by
  refine ⟨rfl, fun u => ?_⟩
  rw [GetStaticPriority, lookupStatic_staticPriorities]
  by_cases h : (u.group = "" ∧ u.kind = "Namespace")
      ∨ (u.group = "apiextensions.k8s.io" ∧ u.kind = "CustomResourceDefinition")
  · simp [h, MaxPriority]
  · simp [h]

/-- C3: `WriteAnnotation` fails with the object-is-nil error on a nil object,
and on every non-nil object and any priority it succeeds, leaves a non-nil
annotation map, and binds the key to the decimal representation of the
priority. -/
theorem writeAnnotation_spec :
    (∀ p : Nat, WriteAnnotation none p = Except.error WriteError.objectIsNil)
    ∧ ∀ (u : Unstructured) (p : Nat), ∃ u' : Unstructured,
        WriteAnnotation (some u) p = Except.ok u'
        ∧ u'.annotations.isSome = true
        ∧ lookupKey u'.annotations Annotation = some (natToDecimal p) := by
  refine ⟨fun p => rfl, fun u p => ⟨writtenObj u p, writeAnnotation_some u p, rfl, ?_⟩⟩
  exact lookupList_setKey_self _ _ _

/-- C4: `ReadAnnotation` returns `(0, nil)` both on a nil object and on an
object whose annotation map lacks the key: a missing annotation is never an
error. -/
theorem readAnnotation_absent (u : Unstructured)
    (h : lookupKey u.annotations Annotation = none) :
    ReadAnnotation none = (0, none) ∧ ReadAnnotation (some u) = (0, none) := by
  refine ⟨rfl, ?_⟩
  simp only [ ReadAnnotation, h]

/-- Witness for C4 at the annotation-free ConfigMap of the test file. -/
theorem readAnnotation_absent_witness :
    ReadAnnotation none = (0, none) ∧ ReadAnnotation (some cmNoAnn) = (0, none) :=
  readAnnotation_absent cmNoAnn (by decide)

/-- C9: `HasAnnotation` is false on a nil object, and on a non-nil object it
is true exactly when the annotation map contains the key; it is a pure
lookup with no effect on the object. -/
theorem hasAnnotation_spec :
    HasAnnotation none = false
    ∧ ∀ u : Unstructured,
        ( HasAnnotation (some u) = true ↔ lookupKey u.annotations Annotation ≠ none) := by
  refine ⟨rfl, fun u => ?_⟩
  simp [ HasAnnotation, Option.isSome_iff_ne_none]

/-- C1: on a non-nil object whose map contains the key with value `s`,
`ReadAnnotation` errors exactly when `ParseUint` fails on `s` or the parsed
value exceeds `MaxPriority`; the error is the invalid-annotation error with
the key and the underlying cause, and otherwise the parsed value is
returned with no error. In particular `"1000000000"` succeeds with
`1000000000` and `"1000000001"` fails. -/
theorem readAnnotation_parse_and_bound (u : Unstructured) (s : String)
    (h : lookupKey u.annotations Annotation = some s) :
    ((( ReadAnnotation (some u)).2 ≠ none) ↔
        (parseUint64 s = none ∨ ∃ p, parseUint64 s = some p ∧ MaxPriority < p))
    ∧ (parseUint64 s = none →
        ReadAnnotation (some u) = (0, some ⟨ Annotation, ErrorCause.parseFailure s⟩))
    ∧ (∀ p, parseUint64 s = some p → MaxPriority < p →
        ReadAnnotation (some u) = (0, some ⟨ Annotation, ErrorCause.higherThanMax MaxPriority⟩))
    ∧ (∀ p, parseUint64 s = some p → p ≤ MaxPriority →
        ReadAnnotation (some u) = (p, none))
    ∧ (∀ v : Unstructured, lookupKey v.annotations Annotation = some "1000000000" →
        ReadAnnotation (some v) = (1000000000, none))
    ∧ (∀ v : Unstructured, lookupKey v.annotations Annotation = some "1000000001" →
        ( ReadAnnotation (some v)).2 ≠ none) := by
  have key := readAnnotation_eq_of_lookup u s h
  refine ⟨?_, ?_, ?_, ?_, ?_, ?_⟩
  · rcases hps : parseUint64 s with _ | p
    · rw [key, hps]
      simp
    · rw [key, hps]
      by_cases hmax : MaxPriority < p
      · simp [hmax]
      · simp only [gt_iff_lt, hmax, if_false]
        simp [hmax]
  · intro hps
    rw [key, hps]
  · intro p hps hmax
    rw [key, hps]
    simp [hmax]
  · intro p hps hmax
    rw [key, hps]
    simp [Nat.not_lt.mpr hmax]
  · intro v hv
    rw [readAnnotation_eq_of_lookup v _ hv]
    decide
  · intro v hv
    rw [readAnnotation_eq_of_lookup v _ hv]
    decide

/-- Witness for C1 at a ConfigMap whose annotation value is `"1000000000"`. -/
theorem readAnnotation_parse_and_bound_witness :
    ReadAnnotation (some (cmWith "1000000000")) = (1000000000, none) :=
  (readAnnotation_parse_and_bound (cmWith "1000000000") "1000000000"
    (by decide)).2.2.2.1 1000000000 (by decide) (by decide)

/-- C5: writing priority `p ≤ MaxPriority` and reading it back returns
`(p, nil)`; in particular this holds from an object with no annotation map
at all, where the map is created by the write. -/
theorem write_read_roundtrip (u u' : Unstructured) (p : Nat) (hp : p ≤ MaxPriority)
    (hw : WriteAnnotation (some u) p = Except.ok u') :
    ReadAnnotation (some u') = (p, none) := by
  rw [writeAnnotation_some] at hw
  injection hw with h
  subst h
  have h64 : p < 2 ^ 64 := lt_of_le_of_lt hp (by norm_num [MaxPriority])
  rw [read_after_write u p h64, if_neg (Nat.not_lt.mpr hp)]

/-- Witness for C5: the round trip at priority 42 from the annotation-free
ConfigMap. -/
theorem write_read_roundtrip_witness :
    ReadAnnotation (some (cmWith "42")) = (42, none) :=
  write_read_roundtrip cmNoAnn (cmWith "42") 42 (by decide) (by rfl)

/-- C6: `WriteAnnotation` enforces no bound: for any priority above
`MaxPriority` (still a uint64) it succeeds, and the subsequent
`ReadAnnotation` fails with the invalid-annotation error citing the
maximum. -/
theorem write_unbounded_then_read_fails (u : Unstructured) (p : Nat)
    (hmax : MaxPriority < p) (h64 : p < 2 ^ 64) :
    (∃ u' : Unstructured, WriteAnnotation (some u) p = Except.ok u')
    ∧ ∀ u' : Unstructured, WriteAnnotation (some u) p = Except.ok u' →
        ReadAnnotation (some u') =
          (0, some ⟨ Annotation, ErrorCause.higherThanMax MaxPriority⟩) := by
  refine ⟨⟨writtenObj u p, writeAnnotation_some u p⟩, fun u' hw => ?_⟩
  rw [writeAnnotation_some] at hw
  injection hw with h
  subst h
  rw [read_after_write u p h64, if_pos hmax]

/-- Witness for C6 at priority `MaxPriority + 1 = 1000000001` on the
annotation-free ConfigMap. -/
theorem write_unbounded_then_read_fails_witness :
    ReadAnnotation (some (cmWith "1000000001")) =
      (0, some ⟨ Annotation, ErrorCause.higherThanMax MaxPriority⟩) :=
  (write_unbounded_then_read_fails cmNoAnn 1000000001 (by decide) (by decide)).2
    (cmWith "1000000001") (by rfl)

/-- C7: with the annotation present holding `s`, `ReadAnnotation` accepts
exactly the nonempty all-digit strings whose value is at most
`MaxPriority`; any string containing a non-digit rune (a sign, a leading
`'+'`, whitespace, a thousands separator) is rejected with an error. -/
theorem readAnnotation_accepted_iff (u : Unstructured) (s : String)
    (h : lookupKey u.annotations Annotation = some s) :
    ((( ReadAnnotation (some u)).2 = none) ↔
        (s ≠ "" ∧ s.toList.all isDigit = true ∧ digitsVal s.toList ≤ MaxPriority))
    ∧ ((∃ c ∈ s.toList, isDigit c = false) → ( ReadAnnotation (some u)).2 ≠ none) := by
  have main : (( ReadAnnotation (some u)).2 = none) ↔
      (s ≠ "" ∧ s.toList.all isDigit = true ∧ digitsVal s.toList ≤ MaxPriority) := by
    by_cases he : s = ""
    · have hps : parseUint64 s = none := by rw [parseUint64, if_pos he]
      rw [readAnnotation_parse_none u s h hps]
      constructor
      · intro hcontra
        exact absurd hcontra (Option.some_ne_none _)
      · rintro ⟨hne, -, -⟩
        exact absurd he hne
    · by_cases hd : s.toList.all isDigit = true
      · by_cases h64 : digitsVal s.toList < 2 ^ 64
        · have hps : parseUint64 s = some (digitsVal s.toList) := by
            rw [parseUint64, if_neg he, if_pos hd, if_pos h64]
          rw [readAnnotation_parse_some u s _ h hps]
          by_cases hm : MaxPriority < digitsVal s.toList
          · rw [if_pos hm]
            constructor
            · intro hcontra
              exact absurd hcontra (Option.some_ne_none _)
            · rintro ⟨-, -, hle⟩
              exact absurd hle (Nat.not_le.mpr hm)
          · rw [if_neg hm]
            exact ⟨fun _ => ⟨he, hd, Nat.not_lt.mp hm⟩, fun _ => rfl⟩
        · have hps : parseUint64 s = none := by
            rw [parseUint64, if_neg he, if_pos hd, if_neg h64]
          rw [readAnnotation_parse_none u s h hps]
          constructor
          · intro hcontra
            exact absurd hcontra (Option.some_ne_none _)
          · rintro ⟨-, -, hle⟩
            exact (h64 (lt_of_le_of_lt hle (by norm_num [MaxPriority]))).elim
      · have hps : parseUint64 s = none := by
          rw [parseUint64, if_neg he, if_neg hd]
        rw [readAnnotation_parse_none u s h hps]
        constructor
        · intro hcontra
          exact absurd hcontra (Option.some_ne_none _)
        · rintro ⟨-, hall, -⟩
          exact (hd hall).elim
  refine ⟨main, fun hex => ?_⟩
  obtain ⟨c, hc, hcd⟩ := hex
  intro hnone
  have hall := (main.mp hnone).2.1
  rw [List.all_eq_true] at hall
  have hdig := hall c hc
  rw [hcd] at hdig
  exact Bool.false_ne_true hdig

/-- Witness for C7: the value `"+1"` (leading plus sign) is rejected. -/
theorem readAnnotation_accepted_iff_witness :
    ( ReadAnnotation (some (cmWith "+1"))).2 ≠ none :=
  (readAnnotation_accepted_iff (cmWith "+1") "+1" (by decide)).2
    ⟨'+', by decide, by decide⟩

/-- C8 counterexample: at priority `1000000001` the double write does leave
the object state unchanged, yet `ReadAnnotation` does not return the
priority — it fails under the read-side bound — so the claim's read clause
is false for priorities above `MaxPriority`. -/
theorem write_idempotent_cex :
    WriteAnnotation (some cmNoAnn) 1000000001 = Except.ok (cmWith "1000000001")
    ∧ WriteAnnotation (some (cmWith "1000000001")) 1000000001 =
        Except.ok (cmWith "1000000001")
    ∧ ReadAnnotation (some (cmWith "1000000001")) ≠ (1000000001, none)
    ∧ ( ReadAnnotation (some (cmWith "1000000001"))).1 ≠ 1000000001 :=
  ⟨rfl, rfl, by decide, by decide⟩

/-- C8 amended: for every non-nil object and every uint64 priority the
second identical write leaves the state of the first, and whenever
`p ≤ MaxPriority`, `ReadAnnotation` still returns `p`. -/
theorem write_idempotent_amended (u u1 : Unstructured) (p : Nat)
    (hw : WriteAnnotation (some u) p = Except.ok u1) :
    WriteAnnotation (some u1) p = Except.ok u1
    ∧ (p ≤ MaxPriority → ReadAnnotation (some u1) = (p, none)) := by
  rw [writeAnnotation_some] at hw
  injection hw with h
  subst h
  refine ⟨write_write_eq u p, fun hp => ?_⟩
  have h64 : p < 2 ^ 64 := lt_of_le_of_lt hp (by norm_num [MaxPriority])
  rw [read_after_write u p h64, if_neg (Nat.not_lt.mpr hp)]

/-- Witness for the amended C8 at priority 7 on the annotation-free
ConfigMap. -/
theorem write_idempotent_amended_witness :
    WriteAnnotation (some (cmWith "7")) 7 = Except.ok (cmWith "7")
    ∧ (7 ≤ MaxPriority → ReadAnnotation (some (cmWith "7")) = (7, none)) :=
  write_idempotent_amended cmNoAnn (cmWith "7") 7 (by rfl)

/-- An object carrying an unrelated annotation, for the frame witness. -/
def cmOther : Unstructured :=
  { group := "", kind := "ConfigMap", nsName := "unused", name := "unused",
    annotations := some [("other", "x")] }

/-- `cmOther` after `WriteAnnotation` with priority 7. -/
def cmOtherW7 : Unstructured :=
  { group := "", kind := "ConfigMap", nsName := "unused", name := "unused",
    annotations := some [("other", "x"), ( Annotation, "7")] }

/-- C10: `WriteAnnotation` only touches the priority-level entry: every
other annotation key keeps its binding, and the group, kind, namespace and
name of the object are unchanged. -/
theorem write_frame (u : Unstructured) (p : Nat) (q : String) (hq : q ≠ Annotation) :
    ∀ u' : Unstructured, WriteAnnotation (some u) p = Except.ok u' →
      lookupKey u'.annotations q = lookupKey u.annotations q
      ∧ u'.group = u.group ∧ u'.kind = u.kind
      ∧ u'.nsName = u.nsName ∧ u'.name = u.name := by
  intro u' hw
  rw [writeAnnotation_some] at hw
  injection hw with h
  subst h
  refine ⟨?_, rfl, rfl, rfl, rfl⟩
  cases hu : u.annotations with
  | none =>
    have hq' : ¬ Annotation = q := fun hh => hq hh.symm
    simp [writtenObj, lookupKey, hu, lookupList, setKey, hq']
  | some m =>
    simp [writtenObj, lookupKey, hu, lookupList_setKey_ne _ _ _ _ hq]

/-- Witness for C10: writing priority 7 preserves the `"other"` annotation
and the identity fields. -/
theorem write_frame_witness :
    lookupKey cmOtherW7.annotations "other" = lookupKey cmOther.annotations "other"
    ∧ cmOtherW7.group = cmOther.group ∧ cmOtherW7.kind = cmOther.kind
    ∧ cmOtherW7.nsName = cmOther.nsName ∧ cmOtherW7.name = cmOther.name :=
  write_frame cmOther 7 "other" (by decide) cmOtherW7 (by rfl)
